import Mathlib

/-!
Verification of the DevPilot LLM agent control loop (devpilot_agent).

Shallow embedding of the agent's data model and control flow:
  * `state.py` — `AgentState` (the run state threaded through the graph);
  * `main.py` — the node functions `call_model`, `call_tool`,
    `ask_for_clarification`, the graph wiring (entry `call_model`,
    conditional edges out of `call_model`, the unconditional edge
    `call_tool → call_model`, `ask_for_clarification → END`), and the
    clarification heuristic;
  * `api.py` — the FastAPI entry point `chat_with_agent`: bearer-token
    extraction, conversion of persisted records to messages and back
    (`convert_lc_message_to_chm` and the inverse parsing loop), initial
    state construction and response selection.

The opaque language-model capability is a parameter (`LLMOracle`), and the
bodies of the remote tools (HTTP calls to the Spring backend) are a
parameter (`ToolExec`); everything around them is translated from the
source.  The graph executor carries a fuel bound mirroring the framework's
recursion limit (default 25 super-steps) and records the sequence of nodes
executed, so that runs can be inspected.
-/

/-- JSON-compatible argument/result values as they appear in tool calls. -/
inductive JsonVal where
  | null
  | bool (b : Bool)
  | num (n : Int)
  | str (s : String)
deriving DecidableEq

/-- Python truthiness for the JSON values used here. -/
def pyTruthy : JsonVal → Bool
  | JsonVal.null => false
  | JsonVal.bool b => b
  | JsonVal.num n => n ≠ 0
  | JsonVal.str s => s ≠ ""

/-- `json.dumps` on a single value (`ensure_ascii=False`). -/
def dumps : JsonVal → String
  | JsonVal.null => "null"
  | JsonVal.bool true => "true"
  | JsonVal.bool false => "false"
  | JsonVal.num n => toString n
  | JsonVal.str s => "\"" ++ s ++ "\""

/-- `main.py`: the `AgentToolCall` dataclass (id, name, args). -/
structure AgentToolCall where
  id : String
  name : String
  args : List (String × JsonVal)
deriving DecidableEq

/-- LangChain message objects as used by the agent: `HumanMessage`,
`AIMessage` (with its `tool_calls`), `SystemMessage`, `ToolMessage`. -/
inductive LCMessage where
  | human (content : String)
  | ai (content : String) (tool_calls : List AgentToolCall)
  | system (content : String)
  | tool (content : String) (tool_call_id : String) (name : String)
deriving DecidableEq

/-- The `tool_call_id` carried by a message, when it is a `ToolMessage`. -/
def msgToolCallId : LCMessage → Option String
  | LCMessage.tool _ id _ => some id
  | _ => none

instance {ε α : Type} [DecidableEq ε] [DecidableEq α] : DecidableEq (Except ε α) :=
  fun x y =>
  match x, y with
  | Except.ok a, Except.ok b =>
    if h : a = b then isTrue (by rw [h]) else isFalse (by intro he; cases he; exact h rfl)
  | Except.error a, Except.error b =>
    if h : a = b then isTrue (by rw [h]) else isFalse (by intro he; cases he; exact h rfl)
  | Except.ok _, Except.error _ => isFalse (by intro h; cases h)
  | Except.error _, Except.ok _ => isFalse (by intro h; cases h)

/-- One entry of `tool_outputs` built by `call_tool`: the original call id,
the tool name, and either a `result` or an `error` string. -/
structure ToolOutputItem where
  original_tool_call_id : String
  tool_name : String
  outcome : Except String JsonVal
deriving DecidableEq

/-- Whether the output item carries an `error` key. -/
def ToolOutputItem.isErr (o : ToolOutputItem) : Bool :=
  match o.outcome with
  | Except.error _ => true
  | Except.ok _ => false

/-- `state.py`: the `AgentState` TypedDict, plus the `user_id` and
`jwt_token` entries that `api.py` seeds and `main.py` reads. -/
structure AgentState where
  input : String
  tool_calls : List AgentToolCall
  chat_history : List LCMessage
  tool_output : List ToolOutputItem
  agent_response : String
  clarification_needed : Bool
  user_id : Option Int
  jwt_token : Option String
deriving DecidableEq

/-- Python substring test (`needle in hay`), on character lists. -/
def hasSubstr (needle : List Char) : List Char → Bool
  | [] => needle.isEmpty
  | c :: rest => needle.isPrefixOf (c :: rest) || hasSubstr needle rest

/-- Python `needle in hay` on strings. -/
def pyIn (needle hay : String) : Bool :=
  hasSubstr needle.toList hay.toList

/-- The fixed keyword set used by `call_model` to spot clarification
questions (which / what / when / who / name / information markers). -/
def clarificationKeywords : List String :=
  ["무엇인가요", "어떤", "언제", "담당자", "이름은", "정보가"]

/-- `main.py` line 98: `"?" in content or any(kw in content for kw in [...])`. -/
def isClarification (content : String) : Bool :=
  pyIn "?" content || clarificationKeywords.any (fun kw => pyIn kw content)

/-- The system directive prepended to every model invocation. -/
def SYSTEM_PROMPT : LCMessage :=
  LCMessage.system ("\n너는 프로젝트와 태스크를 관리해주는 친절한 챗봇 비서야.\n사용자의 요청을 명확히 이해하고, 적절한 도구를 사용하여 작업을 수행해야 해.\n**사용자의 요청에 필요한 모든 정보(예: 프로젝트 이름, 설명, 상태 등)가 명확하게 주어졌다면, 주저하지 말고 주저하지 말고 즉시 해당 도구를 호출하여 작업을 수행해.**\n만약 필요한 정보가 부족하여 도구를 실행할 수 없다면, **도구를 호출하지 말고 사용자에게 어떤 정보가 더 필요한지 구체적으로 질문해야 해.**\n사용자가 \"안녕하세요\"와 같은 일반적인 인사말을 하더라도, 이전에 진행 중이던 대화나 맥락이 있다면 이를 고려하여 응답해야 해.\n만약 도구 실행에 실패했다면, 사용자에게 오류를 친절하게 알리고 다시 시도하도록 안내하거나 다른 도움을 제공해야 해.\n항상 한국어로 친절하게 응답해줘.\n")

/-- The names registered in `tool_map` (`main.py` lines 46-52). -/
def toolNames : List String :=
  ["create_project", "get_all_projects_with_tasks", "get_single_project_with_tasks",
   "update_project", "delete_project", "get_dashboard_projects", "create_task",
   "get_all_tasks", "get_single_task", "update_task", "update_task_tags",
   "update_task_status", "update_task_schedule", "remove_task_tags"]

/-- Python dict update `\x7b**d, k: v\x7d`: overwrite `k` in place if present,
otherwise append it. -/
def pyDictUpdate (d : List (String × JsonVal)) (k : String) (v : JsonVal) :
    List (String × JsonVal) :=
  if d.any (fun p => p.1 = k) then
    d.map (fun p => if p.1 = k then (k, v) else p)
  else d ++ [(k, v)]

/-- The value passed for the injected `jwt_token` argument. -/
def jwtArgVal : Option String → JsonVal
  | none => JsonVal.null
  | some t => JsonVal.str t

/-- `main.py` line 134: `combined_args = \x7b**tool_args, "jwt_token": jwt_token\x7d`. -/
def combinedArgs (tc : AgentToolCall) (jwt : Option String) : List (String × JsonVal) :=
  pyDictUpdate tc.args "jwt_token" (jwtArgVal jwt)

/-- The opaque bodies of the registered tools: `tool_map[name].invoke(args)`,
either returning a JSON value or raising (modelled as `Except.error` with the
exception text). -/
def ToolExec : Type :=
  String → List (String × JsonVal) → Except String JsonVal

/-- A single quote character, as Python's `str(KeyError(...))` prints it. -/
def pyQuote : String := (Char.ofNat 39).toString

/-- `str(e)` for the `KeyError` raised by `tool_map[tool_name]` on an
unregistered name. -/
def keyErrorRepr (name : String) : String := pyQuote ++ name ++ pyQuote

/-- `main.py` line 144: the error message recorded for a failed call. -/
def toolErrorMsg (e : String) : String :=
  "프로젝트 생성 중 오류 발생: API 호출 실패: " ++ e ++ ". 응답 내용: 없음"

/-- One iteration of the `for` loop in `call_tool` (lines 127-150): merge the
injected credential into the arguments, look the tool up by name (a missing
name raises `KeyError`), invoke it, and record a result or error entry. -/
def runOneTool (exec : ToolExec) (jwt : Option String) (tc : AgentToolCall) :
    ToolOutputItem :=
  let combined := combinedArgs tc jwt
  if tc.name ∈ toolNames then
    match exec tc.name combined with
    | Except.ok v => ⟨tc.id, tc.name, Except.ok v⟩
    | Except.error e => ⟨tc.id, tc.name, Except.error (toolErrorMsg e)⟩
  else
    ⟨tc.id, tc.name, Except.error (toolErrorMsg (keyErrorRepr tc.name))⟩

/-- `call_tool` lines 152-158: `output_item.get("result") or
output_item.get("error")`, then `json.dumps` of it. -/
def toolResultContentStr (o : ToolOutputItem) : String :=
  match o.outcome with
  | Except.ok v => if pyTruthy v then dumps v else "null"
  | Except.error e => dumps (JsonVal.str e)

/-- The `ToolMessage` appended to history for one output item. -/
def toolMsgOfOutput (o : ToolOutputItem) : LCMessage :=
  LCMessage.tool (toolResultContentStr o) o.original_tool_call_id o.tool_name

/-- The `ToolMessage` produced for one proposed call. -/
def toolResultMsg (exec : ToolExec) (jwt : Option String) (tc : AgentToolCall) :
    LCMessage :=
  toolMsgOfOutput (runOneTool exec jwt tc)

/-- `call_tool` line 116. -/
def missingUserIdMsg : String :=
  "Error: User ID is missing from agent state, cannot execute tools."

/-- `call_tool` line 171: the fixed apologetic reply set when any call in the
batch produced an error. -/
def batchErrorReply : String :=
  "프로젝트 생성 중 오류가 발생했습니다. API 호출에 문제가 있는 것 같습니다. 잠시 후 다시 시도해 주시거나, 다른 요청이 있으시면 말씀해 주세요. 불편을 드려 죄송합니다."

/-- `call_tool` line 185: the reply set when the whole batch succeeded. -/
def toolSuccessMsg : String := "도구 실행 성공."

/-- `main.py` `call_tool` (lines 107-187): execute the proposed batch in
order, append one `ToolMessage` per call to history, clear `tool_calls`, and
set the apologetic reply if any call errored.  Fields the Python function
does not return (such as `input`) keep their previous value, as LangGraph
merges the returned dict into the state. -/
def call_tool (exec : ToolExec) (s : AgentState) : AgentState :=
  match s.user_id with
  | none =>
    { s with agent_response := missingUserIdMsg, tool_output := [],
             chat_history := s.chat_history ++ [LCMessage.ai missingUserIdMsg []] }
  | some _ =>
    let tool_outputs := s.tool_calls.map (runOneTool exec s.jwt_token)
    let tool_results_for_history := tool_outputs.map toolMsgOfOutput
    let new_chat_history := s.chat_history ++ tool_results_for_history
    if tool_outputs.any ToolOutputItem.isErr then
      { s with tool_output := tool_outputs, chat_history := new_chat_history,
               tool_calls := [], agent_response := batchErrorReply,
               clarification_needed := false }
    else
      { s with tool_output := tool_outputs, chat_history := new_chat_history,
               tool_calls := [], agent_response := toolSuccessMsg,
               clarification_needed := false }

/-- What the language model returns: generated text plus proposed tool calls
(already in the `AgentToolCall` shape the loop at lines 86-93 produces). -/
structure LLMResponse where
  content : String
  tool_calls : List AgentToolCall

/-- The opaque reasoning capability: `llm.invoke(conversation, tools=...)`. -/
def LLMOracle : Type := List LCMessage → LLMResponse

/-- `call_model` line 70: `state["chat_history"] + [HumanMessage(state["input"])]`. -/
def messagesForLLM (s : AgentState) : List LCMessage :=
  s.chat_history ++ [LCMessage.human s.input]

/-- `main.py` `call_model` (lines 66-105): invoke the model on the system
prompt plus history plus the current input, append the response to history,
reset `input` to the empty string, and either hand the proposed tool calls
on or classify the text response. -/
def call_model (llm : LLMOracle) (s : AgentState) : AgentState :=
  let messages_for_llm := messagesForLLM s
  let response := llm (SYSTEM_PROMPT :: messages_for_llm)
  let new_chat_history :=
    messages_for_llm ++ [LCMessage.ai response.content response.tool_calls]
  if response.tool_calls ≠ [] then
    { s with tool_calls := response.tool_calls, chat_history := new_chat_history,
             input := "" }
  else
    { s with agent_response := response.content,
             clarification_needed := isClarification response.content,
             chat_history := new_chat_history, input := "" }

/-- `main.py` lines 190-191. -/
def ask_for_clarification (s : AgentState) : AgentState :=
  { s with clarification_needed := true }

/-- The nodes of the compiled graph, plus the `END` sentinel. -/
inductive Node where
  | callModel
  | callTool
  | askClarification
  | endNode
deriving DecidableEq

/-- The conditional edges out of `call_model` (lines 201-210). -/
def routeAfterModel (s : AgentState) : Node :=
  if s.tool_calls ≠ [] then Node.callTool
  else if s.clarification_needed then Node.askClarification
  else Node.endNode

/-- Outcome of a graph invocation: normal completion at `END`, or the
framework's `GraphRecursionError` when the step budget runs out. -/
inductive RunResult where
  | done (s : AgentState)
  | recursionError (s : AgentState)
deriving DecidableEq

/-- Whether the run reached `END`. -/
def RunResult.isDoneB : RunResult → Bool
  | RunResult.done _ => true
  | RunResult.recursionError _ => false

/-- The state the run stopped in. -/
def RunResult.finalState : RunResult → AgentState
  | RunResult.done s => s
  | RunResult.recursionError s => s

/-- The graph executor: entry point `call_model`, conditional edges after
`call_model`, the unconditional edge `call_tool → call_model` (line 212),
and `ask_for_clarification → END` (line 213).  The fuel mirrors the
framework recursion limit; the returned list records the nodes executed, in
order. -/
def runGraphT (llm : LLMOracle) (exec : ToolExec) :
    Nat → Node → AgentState → RunResult × List Node
  | _, Node.endNode, s => (RunResult.done s, [])
  | 0, _, s => (RunResult.recursionError s, [])
  | Nat.succ n, Node.callModel, s =>
    let s2 := call_model llm s
    let r := runGraphT llm exec n (routeAfterModel s2) s2
    (r.1, Node.callModel :: r.2)
  | Nat.succ n, Node.callTool, s =>
    let r := runGraphT llm exec n Node.callModel (call_tool exec s)
    (r.1, Node.callTool :: r.2)
  | Nat.succ n, Node.askClarification, s =>
    let r := runGraphT llm exec n Node.endNode (ask_for_clarification s)
    (r.1, Node.askClarification :: r.2)

/-- The framework's default recursion limit. -/
def recursionLimit : Nat := 25

/-- `app.invoke(initial_state)`: run from the entry point with the default
step budget. -/
def invokeApp (llm : LLMOracle) (exec : ToolExec) (s : AgentState) : RunResult :=
  (runGraphT llm exec recursionLimit Node.callModel s).1

/-- The message `type` tags accepted by the persisted record format
(`api.py` line 65). -/
inductive CHMType where
  | human
  | ai
  | system
  | tool
  | user
  | bot
deriving DecidableEq

/-- `api.py` lines 58-61: `ToolCallData`. -/
structure ToolCallData where
  id : String
  name : String
  args : List (String × JsonVal)
deriving DecidableEq

/-- `api.py` lines 63-68: one persisted chat-history record. -/
structure ChatHistoryMessage where
  content : String
  type : CHMType
  tool_calls : Option (List ToolCallData)
  tool_call_id : Option String
  name : Option String
deriving DecidableEq

/-- `api.py` lines 70-73: the request body. -/
structure ChatRequest where
  user_input : String
  chat_history : List ChatHistoryMessage
  user_id : Option Int
deriving DecidableEq

/-- `api.py` lines 75-76: the response body. -/
structure ChatResponse where
  response : String
deriving DecidableEq

/-- `api.py` lines 86-109: serialize a LangChain message to its persisted
record (`convert_lc_message_to_chm`).  An `AIMessage` whose `tool_calls`
list is empty is falsy in Python, so it serializes without tool calls. -/
def convert_lc_message_to_chm (m : LCMessage) : ChatHistoryMessage :=
  match m with
  | LCMessage.human c => ⟨c, CHMType.human, none, none, none⟩
  | LCMessage.ai c tcs =>
    if tcs = [] then ⟨c, CHMType.ai, none, none, none⟩
    else ⟨c, CHMType.ai, some (tcs.map (fun t => ⟨t.id, t.name, t.args⟩)), none, none⟩
  | LCMessage.system c => ⟨c, CHMType.system, none, none, none⟩
  | LCMessage.tool c id nm => ⟨c, CHMType.tool, none, some id, some nm⟩

/-- The exception the deserialization loop can raise: `api.py` line 173
builds `ToolCall(...)`, a name that is never imported in `api.py`, so an
`ai` record with a non-empty `tool_calls` list raises `NameError`. -/
inductive PyError where
  | nameErrorToolCall
deriving DecidableEq

/-- `api.py` lines 162-187: convert one persisted record back to a
LangChain message.  `ok none` means the record is skipped with a warning
(malformed `tool` records); Python truthiness makes an empty
`tool_call_id` or `name` string count as missing. -/
def deserializeOne (m : ChatHistoryMessage) : Except PyError (Option LCMessage) :=
  match m.type with
  | CHMType.user => Except.ok (some (LCMessage.human m.content))
  | CHMType.bot => Except.ok (some (LCMessage.ai m.content []))
  | CHMType.human => Except.ok (some (LCMessage.human m.content))
  | CHMType.ai =>
    match m.tool_calls with
    | some tcs =>
      if tcs = [] then Except.ok (some (LCMessage.ai m.content []))
      else Except.error PyError.nameErrorToolCall
    | none => Except.ok (some (LCMessage.ai m.content []))
  | CHMType.tool =>
    match m.tool_call_id, m.name with
    | some i, some nm =>
      if i ≠ "" ∧ nm ≠ "" then Except.ok (some (LCMessage.tool m.content i nm))
      else Except.ok none
    | _, _ => Except.ok none
  | CHMType.system => Except.ok (some (LCMessage.system m.content))

/-- The whole conversion loop (`api.py` lines 154-187), collecting the
converted messages in order and propagating the first raised exception. -/
def deserializeHistory : List ChatHistoryMessage → Except PyError (List LCMessage)
  | [] => Except.ok []
  | m :: rest =>
    match deserializeOne m with
    | Except.error e => Except.error e
    | Except.ok none => deserializeHistory rest
    | Except.ok (some msg) =>
      match deserializeHistory rest with
      | Except.error e => Except.error e
      | Except.ok r => Except.ok (msg :: r)

/-- Python `s.split(" ")`, on character lists. -/
def goSplitSpace : List Char → List (List Char)
  | [] => [[]]
  | c :: cs =>
    match goSplitSpace cs with
    | h :: t => if c = ' ' then [] :: h :: t else (c :: h) :: t
    | [] => [[]]

/-- Python `s.split(" ")`. -/
def pySplitSpace (s : String) : List String :=
  (goSplitSpace s.toList).map (fun l => String.mk l)

/-- `api.py` lines 133-136: take the token after `Bearer ` from the
`Authorization` header, if present. -/
def extractBearer : Option String → Option String
  | none => none
  | some a =>
    if "Bearer ".toList.isPrefixOf a.toList then
      match pySplitSpace a with
      | _ :: x :: _ => some x
      | _ => none
    else none

/-- `api.py` lines 190-199: the initial `AgentState` for a run. -/
def initialState (inp : String) (hist : List LCMessage) (uid : Int)
    (tok : String) : AgentState :=
  { input := inp, chat_history := hist, tool_calls := [], tool_output := [],
    agent_response := "", clarification_needed := false, user_id := some uid,
    jwt_token := some tok }

/-- `json.dumps` of one `tool_output` entry. -/
def dumpsOutputItem (o : ToolOutputItem) : String :=
  "\x7b\"original_tool_call_id\": " ++ dumps (JsonVal.str o.original_tool_call_id) ++
  ", \"tool_name\": " ++ dumps (JsonVal.str o.tool_name) ++ ", " ++
  (match o.outcome with
   | Except.ok v => "\"result\": " ++ dumps v
   | Except.error e => "\"error\": " ++ dumps (JsonVal.str e)) ++ "\x7d"

/-- `json.dumps` of the `tool_output` list. -/
def dumpsOutputs (l : List ToolOutputItem) : String :=
  "[" ++ String.intercalate ", " (l.map dumpsOutputItem) ++ "]"

/-- `api.py` lines 204-210: pick the text returned to the caller from the
final state. -/
def responseContent (fs : AgentState) : String :=
  if fs.agent_response ≠ "" then fs.agent_response
  else if fs.tool_output ≠ [] then "도구 실행 완료: " ++ dumpsOutputs fs.tool_output
  else "챗봇이 응답을 생성하지 못했습니다."

/-- An HTTP error response escaping the endpoint: a deliberate
`HTTPException`, or the framework's 500 for an unhandled exception. -/
structure HTTPErr where
  status_code : Nat
  detail : String
deriving DecidableEq

/-- Detail string of the `HTTPException` re-raised when the graph
invocation itself raises (`api.py` lines 224-233). -/
def graphErrDetail : String :=
  "챗봇 에이전트 실행 중 오류 발생: GraphRecursionError"

/-- FastAPI's reply for an exception not caught by the handler (the
deserialization loop at lines 154-187 runs outside the `try`). -/
def internalServerErr : HTTPErr := ⟨500, "Internal Server Error"⟩

/-- `api.py` `chat_with_agent` (lines 128-233): validate the request,
extract the bearer token, convert the persisted history, run the graph and
return the chosen reply — or raise.  Database writes are external side
effects with no influence on the reply and are not modelled. -/
def chat_with_agent (llm : LLMOracle) (exec : ToolExec) (req : ChatRequest)
    (authHeader : Option String) : Except HTTPErr ChatResponse :=
  match req.user_id with
  | none => Except.error ⟨400, "user_id is required"⟩
  | some uid =>
    match extractBearer authHeader with
    | none => Except.error ⟨401, "JWT token is required for this operation."⟩
    | some tok =>
      match deserializeHistory req.chat_history with
      | Except.error _ => Except.error internalServerErr
      | Except.ok hist =>
        match invokeApp llm exec (initialState req.user_input hist uid tok) with
        | RunResult.recursionError _ => Except.error ⟨500, graphErrDetail⟩
        | RunResult.done fs => Except.ok ⟨responseContent fs⟩

/-- Whether the endpoint returned normally rather than raising. -/
def exOk {ε α : Type} : Except ε α → Bool
  | Except.ok _ => true
  | Except.error _ => false

/-- Python dict lookup on the association lists used for tool arguments. -/
def pyLookup (k : String) : List (String × JsonVal) → Option JsonVal
  | [] => none
  | p :: t => if p.1 = k then some p.2 else pyLookup k t

/-- Modelled from the spec: a `Respond` text counts as a clarification when
it has a trailing question mark or contains one of the fixed interrogative
keywords (spec §4.1). -/
def specInterrogative (text : String) : Bool :=
  "?".toList.isSuffixOf text.toList ||
    clarificationKeywords.any (fun kw => pyIn kw text)

/-- The classification rule as amended: a question mark anywhere in the
text, or any of the fixed keywords. -/
def amendedInterrogative (text : String) : Bool :=
  text.toList.contains (Char.ofNat 63) ||
    clarificationKeywords.any (fun kw => pyIn kw text)

/-- A tool call a runaway reasoning capability proposes over and over. -/
def tcLoop : AgentToolCall := ⟨"loop_call", "get_all_tasks", []⟩

/-- A reasoning capability that always proposes a new tool call. -/
def alwaysPropose : LLMOracle := fun _ => ⟨"", [tcLoop]⟩

/-- Tool bodies that always succeed. -/
def okExec : ToolExec := fun _ _ => Except.ok JsonVal.null

/-- Tool bodies that always raise. -/
def errExec : ToolExec := fun _ _ => Except.error "boom"

/-- A concrete proposed call (scenario B of the spec). -/
def tcCreate : AgentToolCall :=
  ⟨"call_1", "create_project", [("project_name", JsonVal.str "런칭")]⟩

/-- A reasoning capability that proposes `tcCreate` on its first invocation
(when the conversation is just the system prompt plus one human turn) and
answers with plain text afterwards. -/
def proposeThenRespond : LLMOracle := fun msgs =>
  if msgs.length ≤ 2 then ⟨"", [tcCreate]⟩ else ⟨"tada", []⟩

/-- A fresh run for user 1 with input "hi" and bearer token "t". -/
def initRun : AgentState := initialState "hi" [] 1 "t"

/-- A proposal in which the model supplies identity arguments itself. -/
def tcIdentity : AgentToolCall :=
  ⟨"call_9", "create_task",
   [("title", JsonVal.str "x"), ("request_user_id", JsonVal.num 999),
    ("jwt_token", JsonVal.str "forged")]⟩

/-- A proposal with only caller-declared business arguments. -/
def tcPlain : AgentToolCall := ⟨"call_2", "create_task", [("title", JsonVal.str "x")]⟩

/-- A mid-cycle state holding a batch of two proposed calls, the second of
which names a tool absent from the registry. -/
def sBatch : AgentState :=
  { input := "", tool_calls := [⟨"a1", "get_all_tasks", []⟩, ⟨"a2", "nonexistent_tool", []⟩],
    chat_history := [LCMessage.human "hi"], tool_output := [], agent_response := "",
    clarification_needed := false, user_id := some 7, jwt_token := some "jw" }

/-- A persisted tool record whose `tool_call_id` was never proposed in any
run (the surrounding history contains no assistant message at all). -/
def strayToolRecord : ChatHistoryMessage :=
  ⟨"stray result", CHMType.tool, none, some "ghost_id", some "create_task"⟩

/-- A request whose history holds one assistant record with a tool call. -/
def reqBadHistory : ChatRequest :=
  ⟨"hello", [⟨"", CHMType.ai, some [⟨"c1", "create_task", []⟩], none, none⟩], some 1⟩

/-- A well-formed request with empty history. -/
def reqGood : ChatRequest := ⟨"hi", [], some 1⟩

/-! ### Helper lemmas about the two node functions -/

theorem call_model_input_empty (llm : LLMOracle) (s : AgentState) :
    (call_model llm s).input = "" := by
  unfold call_model
  dsimp only
  split <;> rfl

theorem call_tool_input_preserved (exec : ToolExec) (s : AgentState) :
    (call_tool exec s).input = s.input := by
  unfold call_tool
  cases s.user_id with
  | none => rfl
  | some uid =>
    dsimp only
    split <;> rfl

theorem call_tool_chat_history (exec : ToolExec) (s : AgentState)
    (h : s.user_id.isSome = true) :
    (call_tool exec s).chat_history =
      s.chat_history ++ s.tool_calls.map (toolResultMsg exec s.jwt_token) := by
  unfold call_tool
  cases hu : s.user_id with
  | none => rw [hu] at h; simp at h
  | some uid =>
    dsimp only
    split <;> · dsimp only; rw [List.map_map]; rfl

theorem call_tool_tool_output (exec : ToolExec) (s : AgentState)
    (h : s.user_id.isSome = true) :
    (call_tool exec s).tool_output = s.tool_calls.map (runOneTool exec s.jwt_token) := by
  unfold call_tool
  cases hu : s.user_id with
  | none => rw [hu] at h; simp at h
  | some uid =>
    dsimp only
    split <;> rfl

theorem runOneTool_id (exec : ToolExec) (jwt : Option String) (tc : AgentToolCall) :
    (runOneTool exec jwt tc).original_tool_call_id = tc.id := by
  unfold runOneTool
  dsimp only
  split
  · split <;> rfl
  · rfl

/-! ### Dictionary-merge lemmas for the injected credential -/

theorem pyLookup_map_overwrite (k : String) (v : JsonVal) :
    ∀ d : List (String × JsonVal), d.any (fun p => p.1 = k) = true →
      pyLookup k (d.map (fun p => if p.1 = k then (k, v) else p)) = some v := by
  intro d
  induction d with
  | nil => intro h; simp at h
  | cons p t ih =>
    intro h
    by_cases hp : p.1 = k
    · simp [pyLookup, hp]
    · have ht : t.any (fun p => p.1 = k) = true := by
        simp [List.any_cons, hp] at h
        simpa using h
      simp [pyLookup, hp, ih ht]

theorem pyLookup_append_absent (k : String) (v : JsonVal) :
    ∀ d : List (String × JsonVal), d.any (fun p => p.1 = k) = false →
      pyLookup k (d ++ [(k, v)]) = some v := by
  intro d
  induction d with
  | nil => intro _; simp [pyLookup]
  | cons p t ih =>
    intro h
    simp [List.any_cons] at h
    simp [pyLookup, h.1, ih (by simpa using h.2)]

theorem pyLookup_update_self (d : List (String × JsonVal)) (k : String) (v : JsonVal) :
    pyLookup k (pyDictUpdate d k v) = some v := by
  unfold pyDictUpdate
  by_cases hd : d.any (fun p => p.1 = k) = true
  · rw [if_pos hd]
    exact pyLookup_map_overwrite k v d hd
  · have hd2 : d.any (fun p => p.1 = k) = false := by
      cases hda : d.any (fun p => p.1 = k)
      · rfl
      · exact absurd hda hd
    rw [if_neg hd]
    exact pyLookup_append_absent k v d hd2

theorem pyLookup_map_other (k kp : String) (v : JsonVal) (h : kp ≠ k) :
    ∀ d : List (String × JsonVal),
      pyLookup kp (d.map (fun p => if p.1 = k then (k, v) else p)) = pyLookup kp d := by
  intro d
  induction d with
  | nil => rfl
  | cons p t ih =>
    by_cases hp : p.1 = k
    · simp [pyLookup, hp, Ne.symm h, ih]
    · simp [pyLookup, hp, ih]

theorem pyLookup_append_other (k kp : String) (v : JsonVal) (h : kp ≠ k) :
    ∀ d : List (String × JsonVal),
      pyLookup kp (d ++ [(k, v)]) = pyLookup kp d := by
  intro d
  induction d with
  | nil => simp [pyLookup, Ne.symm h]
  | cons p t ih => by_cases hp : p.1 = kp <;> simp [pyLookup, hp, ih]

theorem pyLookup_update_other (d : List (String × JsonVal)) (k kp : String)
    (v : JsonVal) (h : kp ≠ k) :
    pyLookup kp (pyDictUpdate d k v) = pyLookup kp d := by
  unfold pyDictUpdate
  by_cases hd : d.any (fun p => p.1 = k) = true
  · rw [if_pos hd]
    exact pyLookup_map_other k kp v h d
  · rw [if_neg hd]
    exact pyLookup_append_other k kp v h d

/-! ### The single-character substring test is membership -/

theorem hasSubstr_singleton (c : Char) :
    ∀ l : List Char, hasSubstr [c] l = l.contains c := by
  intro l
  induction l with
  | nil => rfl
  | cons a t ih =>
    show ([c].isPrefixOf (a :: t) || hasSubstr [c] t) = (a :: t).contains c
    cases h : c == a <;>
      simp [List.isPrefixOf, List.contains, List.elem, h, ih]

/-! ### Claim C10 -/

/-- C10: after any tool batch the graph re-enters the reasoning node (the
edge out of `call_tool` is unconditional), the state's `input` was reset to
the empty string by the previous reasoning step and preserved by the tool
step, so every reasoning invocation after the first appends an additional
`Human` message with empty content before the model is called. -/
theorem c10_reenter_with_empty_input (llm : LLMOracle) (exec : ToolExec) (s : AgentState) :
    (call_model llm s).input = "" ∧
    (call_tool exec (call_model llm s)).input = "" ∧
    messagesForLLM (call_tool exec (call_model llm s)) =
      (call_tool exec (call_model llm s)).chat_history ++ [LCMessage.human ""] ∧
    ∀ (n : Nat) (s7 : AgentState),
      (runGraphT llm exec (n + 1) Node.callTool s7).1 =
        (runGraphT llm exec n Node.callModel (call_tool exec s7)).1 := by
  refine ⟨call_model_input_empty llm s, ?_, ?_, ?_⟩
  · rw [call_tool_input_preserved, call_model_input_empty]
  · unfold messagesForLLM
    rw [call_tool_input_preserved, call_model_input_empty]
  · intro n s7
    rfl

/-! ### Claim C5 -/

/-- C5: for any batch of N proposed tool calls (executed with the subject
id present, as every run seeded by the endpoint is), `call_tool` appends
exactly N `ToolMessage`s to history — one per proposal, in proposal order,
each carrying the id of its proposal. -/
theorem c5_batch_appends_in_order (exec : ToolExec) (s : AgentState)
    (h : s.user_id.isSome = true) :
    (call_tool exec s).chat_history =
      s.chat_history ++ s.tool_calls.map (toolResultMsg exec s.jwt_token) ∧
    ((call_tool exec s).chat_history).length =
      s.chat_history.length + s.tool_calls.length ∧
    ∀ tc : AgentToolCall, msgToolCallId (toolResultMsg exec s.jwt_token tc) = some tc.id := by
  have h1 := call_tool_chat_history exec s h
  refine ⟨h1, ?_, ?_⟩
  · rw [h1, List.length_append, List.length_map]
  · intro tc
    show msgToolCallId (toolMsgOfOutput (runOneTool exec s.jwt_token tc)) = some tc.id
    unfold toolMsgOfOutput msgToolCallId
    rw [runOneTool_id]

theorem c5_batch_appends_in_order_witness :
    (call_tool okExec sBatch).chat_history =
      sBatch.chat_history ++ sBatch.tool_calls.map (toolResultMsg okExec sBatch.jwt_token) ∧
    msgToolCallId (toolResultMsg okExec sBatch.jwt_token ⟨"a1", "get_all_tasks", []⟩) =
      some "a1" :=
  ⟨(c5_batch_appends_in_order okExec sBatch rfl).1,
   (c5_batch_appends_in_order okExec sBatch rfl).2.2 ⟨"a1", "get_all_tasks", []⟩⟩

/-! ### Claim C8 -/

/-- C8: the execution step is a total function producing one output entry
per call, each depending only on its own call (so one failure never aborts
the siblings), and a call naming a tool absent from the registry yields an
error `ToolResult` for that single call. -/
theorem c8_unknown_tool_isolated (exec : ToolExec) (s : AgentState)
    (h : s.user_id.isSome = true) :
    (call_tool exec s).tool_output = s.tool_calls.map (runOneTool exec s.jwt_token) ∧
    ∀ tc : AgentToolCall, tc.name ∉ toolNames →
      (runOneTool exec s.jwt_token tc).isErr = true := by
  refine ⟨call_tool_tool_output exec s h, ?_⟩
  intro tc hn
  unfold runOneTool
  dsimp only
  rw [if_neg hn]
  rfl

theorem c8_unknown_tool_isolated_witness :
    (call_tool okExec sBatch).tool_output =
      sBatch.tool_calls.map (runOneTool okExec sBatch.jwt_token) ∧
    (runOneTool okExec sBatch.jwt_token ⟨"a2", "nonexistent_tool", []⟩).isErr = true :=
  ⟨(c8_unknown_tool_isolated okExec sBatch rfl).1,
   (c8_unknown_tool_isolated okExec sBatch rfl).2 ⟨"a2", "nonexistent_tool", []⟩ (by decide)⟩

/-! ### Claim C7 -/

/-- C7 counterexample: a persisted tool record whose `toolCallId` was never
proposed in any run (the history contains no assistant message at all) is
accepted by the history conversion and appended as a `ToolMessage`, not
rejected or flagged. -/
theorem c7_stray_tool_result_accepted :
    deserializeHistory [strayToolRecord] =
      Except.ok [LCMessage.tool "stray result" "ghost_id" "create_task"] := by
  rfl

/-- C7 as amended: tool results created by the execution step do reference
the ids of the proposed batch, in order; but an incoming history record of
type `tool` is validated only for the presence of a non-empty
`tool_call_id` and `name`, and is accepted regardless of whether the id was
ever proposed. -/
theorem c7_execution_results_reference_proposals (exec : ToolExec) (s : AgentState)
    (h : s.user_id.isSome = true) :
    ((call_tool exec s).chat_history.drop s.chat_history.length).map msgToolCallId =
      s.tool_calls.map (fun tc => some tc.id) ∧
    ∀ (c i nm : String), i ≠ "" → nm ≠ "" →
      deserializeOne ⟨c, CHMType.tool, none, some i, some nm⟩ =
        Except.ok (some (LCMessage.tool c i nm)) := by
  constructor
  · rw [call_tool_chat_history exec s h, List.drop_left, List.map_map]
    have he : (msgToolCallId ∘ toolResultMsg exec s.jwt_token) = fun tc => some tc.id := by
      funext tc
      show msgToolCallId (toolMsgOfOutput (runOneTool exec s.jwt_token tc)) = some tc.id
      unfold toolMsgOfOutput msgToolCallId
      rw [runOneTool_id]
    rw [he]
  · intro c i nm hi hnm
    unfold deserializeOne
    dsimp only
    rw [if_pos ⟨hi, hnm⟩]

theorem c7_execution_results_reference_proposals_witness :
    ((call_tool okExec sBatch).chat_history.drop sBatch.chat_history.length).map msgToolCallId =
      sBatch.tool_calls.map (fun tc => some tc.id) ∧
    deserializeOne ⟨"r", CHMType.tool, none, some "g1", some "tname"⟩ =
      Except.ok (some (LCMessage.tool "r" "g1" "tname")) :=
  ⟨(c7_execution_results_reference_proposals okExec sBatch rfl).1,
   (c7_execution_results_reference_proposals okExec sBatch rfl).2 "r" "g1" "tname"
     (by decide) (by decide)⟩

/-! ### Claim C6 -/

/-- C6 counterexample: for a proposal whose arguments carry model-supplied
identity values, the merged mapping contains no injected subject id (no
`user_id` or `subjectId` key is added from the run state), and the
model-supplied `request_user_id` is passed to the tool unchanged — only the
`jwt_token` credential is overridden. -/
theorem c6_no_subject_injected :
    pyLookup "user_id" (combinedArgs tcIdentity (some "realtok")) = none ∧
    pyLookup "subjectId" (combinedArgs tcIdentity (some "realtok")) = none ∧
    pyLookup "request_user_id" (combinedArgs tcIdentity (some "realtok")) =
      some (JsonVal.num 999) ∧
    pyLookup "jwt_token" (combinedArgs tcIdentity (some "realtok")) =
      some (JsonVal.str "realtok") := by
  decide

/-- C6 as amended: the argument mapping passed to the tool is the
caller-declared arguments with the single injected credential `jwt_token`
taken from the run state, overriding any model-supplied `jwt_token`; every
other key — including model-supplied identity arguments — is passed
through unchanged, and no subject id is injected. -/
theorem c6_only_credential_injected (tc : AgentToolCall) (jwt : Option String) :
    pyLookup "jwt_token" (combinedArgs tc jwt) = some (jwtArgVal jwt) ∧
    ∀ k : String, k ≠ "jwt_token" → pyLookup k (combinedArgs tc jwt) = pyLookup k tc.args := by
  constructor
  · exact pyLookup_update_self tc.args "jwt_token" (jwtArgVal jwt)
  · intro k hk
    exact pyLookup_update_other tc.args "jwt_token" k (jwtArgVal jwt) hk

theorem c6_only_credential_injected_witness :
    pyLookup "jwt_token" (combinedArgs tcPlain (some "t")) = some (jwtArgVal (some "t")) ∧
    pyLookup "title" (combinedArgs tcPlain (some "t")) = some (JsonVal.str "x") :=
  ⟨(c6_only_credential_injected tcPlain (some "t")).1,
   ((c6_only_credential_injected tcPlain (some "t")).2 "title" (by decide)).trans (by decide)⟩

/-! ### Claim C9 -/

/-- C9 counterexample: the text `"Q? A"` has no trailing question mark and
none of the fixed keywords, so under the claimed rule it is a terminal
answer; the code classifies it as a clarification because it tests for a
question mark anywhere in the text. -/
theorem c9_question_mark_anywhere :
    isClarification "Q? A" = true ∧ specInterrogative "Q? A" = false := by
  decide

/-- C9 as amended: a `Respond` text is classified as a clarification
request exactly when it contains a question mark anywhere (not only
trailing), or at least one keyword of the fixed set. -/
theorem c9_classifier_amended (text : String) :
    isClarification text = amendedInterrogative text := by
  unfold isClarification amendedInterrogative pyIn
  have h0 : "?".toList = [Char.ofNat 63] := by decide
  rw [h0, hasSubstr_singleton (Char.ofNat 63) text.toList]

/-! ### Claim C1 -/

/-- C1: evaluation at a failing input.  One batch whose only call errors is
executed; `call_tool` stores the fixed apologetic reply and clears the
pending calls, but the graph's unconditional `call_tool → call_model` edge
runs the Reasoning Step again — the node trace is
`[call_model, call_tool, call_model]` — and the second model response
overwrites the apology, so the run ends in `Done` with `"tada"`, not with
the apologetic reply and not directly after the errored batch. -/
theorem c1_errored_batch_reenters_reasoning :
    (runGraphT proposeThenRespond errExec 25 Node.callModel initRun).2 =
      [Node.callModel, Node.callTool, Node.callModel] ∧
    ((runGraphT proposeThenRespond errExec 25 Node.callModel initRun).1).isDoneB = true ∧
    ((runGraphT proposeThenRespond errExec 25 Node.callModel
        initRun).1).finalState.tool_output.any ToolOutputItem.isErr = true ∧
    ((runGraphT proposeThenRespond errExec 25 Node.callModel
        initRun).1).finalState.agent_response = "tada" ∧
    ("tada" : String) ≠ batchErrorReply := by
  decide

/-! ### Claim C2 -/

theorem alwaysPropose_never_done :
    ∀ n : Nat,
      (∀ s : AgentState,
        ((runGraphT alwaysPropose okExec n Node.callModel s).1).isDoneB = false) ∧
      (∀ s : AgentState,
        ((runGraphT alwaysPropose okExec n Node.callTool s).1).isDoneB = false) := by
  intro n
  induction n with
  | zero => exact ⟨fun s => rfl, fun s => rfl⟩
  | succ n ih =>
    constructor
    · intro s
      have hroute : routeAfterModel (call_model alwaysPropose s) = Node.callTool := rfl
      show ((runGraphT alwaysPropose okExec n
          (routeAfterModel (call_model alwaysPropose s)) (call_model alwaysPropose s)).1).isDoneB
        = false
      rw [hroute]
      exact ih.2 _
    · intro s
      show ((runGraphT alwaysPropose okExec n Node.callModel
          (call_tool okExec s)).1).isDoneB = false
      exact ih.1 _

/-- C2 as amended: the control loop itself enforces no cycle bound — under
a reasoning capability that always proposes a new tool call, the run never
terminates in `Done` whatever the step budget; it is cut off only by the
framework's recursion limit, which surfaces as a raised
`GraphRecursionError`, not as a fixed fallback reply. -/
theorem c2_no_cycle_bound (n : Nat) (s : AgentState) :
    ((runGraphT alwaysPropose okExec n Node.callModel s).1).isDoneB = false :=
  (alwaysPropose_never_done n).1 s

/-- C2 counterexample: with the always-proposing capability the default
invocation executes twelve Reasoning→Executing cycles — more than any
single-digit bound — and ends in `GraphRecursionError`, not in `Done` with
a fallback reply. -/
theorem c2_counterexample_unbounded_cycles :
    (invokeApp alwaysPropose okExec initRun).isDoneB = false ∧
    (runGraphT alwaysPropose okExec recursionLimit Node.callModel initRun).2.count
      Node.callTool = 12 := by
  decide

/-! ### Claim C3 -/

/-- C3 counterexample: a request whose history holds an assistant record
with tool calls makes the conversion loop (which runs outside the handler's
`try`) raise `NameError` — the undefined `ToolCall` at `api.py` line 173 —
so the endpoint raises an HTTP 500 instead of returning a reply string. -/
theorem c3_raises_past_boundary :
    chat_with_agent proposeThenRespond okExec reqBadHistory (some "Bearer tok") =
      Except.error internalServerErr := by
  rfl

/-- C3 as amended: failures below the control loop that occur inside
the graph are converted to data, and whenever the graph run completes the
endpoint returns a reply; but the endpoint fails by raising — 400/401
`HTTPException`s for missing identity, an unhandled `NameError` for
assistant history records with tool calls, and a 500 re-raise when the
graph invocation itself raises — rather than converting every failure into
a reply string. -/
theorem c3_reply_when_graph_completes (llm : LLMOracle) (exec : ToolExec)
    (req : ChatRequest) (auth : Option String) (uid : Int) (tok : String)
    (hist : List LCMessage)
    (h1 : req.user_id = some uid)
    (h2 : extractBearer auth = some tok)
    (h3 : deserializeHistory req.chat_history = Except.ok hist)
    (h4 : (invokeApp llm exec (initialState req.user_input hist uid tok)).isDoneB = true) :
    exOk (chat_with_agent llm exec req auth) = true := by
  unfold chat_with_agent
  rw [h1]
  dsimp only
  rw [h2]
  dsimp only
  rw [h3]
  dsimp only
  cases hr : invokeApp llm exec (initialState req.user_input hist uid tok) with
  | done fs => rfl
  | recursionError s2 =>
    rw [hr] at h4
    simp [RunResult.isDoneB] at h4

theorem c3_reply_when_graph_completes_witness :
    exOk (chat_with_agent proposeThenRespond errExec reqGood (some "Bearer t")) = true :=
  c3_reply_when_graph_completes proposeThenRespond errExec reqGood (some "Bearer t") 1 "t" []
    rfl (by decide) rfl (by decide)

/-! ### Claim C4 -/

/-- C4: evaluation at a failing input.  Serializing an assistant message
that proposes a tool call and feeding the record back through the history
conversion raises `NameError` (the undefined `ToolCall` at `api.py` line
173) instead of reproducing an equivalent message. -/
theorem c4_roundtrip_raises_on_tool_calls :
    deserializeOne (convert_lc_message_to_chm (LCMessage.ai "" [tcPlain])) =
      Except.error PyError.nameErrorToolCall := by
  rfl
